import Mathlib

/-!
Shallow embedding of the dataset discovery, classification, selection and
mask-normalization engine of the bone-displayer repository
(src/h5_convert.py and src/pick_and_display.py).

Names follow the Python source.  Element types (numpy dtype kinds) are the
four-way split the source inspects; array data is a flat list of rational
values; uint8 casts are taken modulo 256 as numpy does.
-/

/-- numpy dtype kind, as inspected via np.dtype(dt).kind: signed integer,
unsigned integer, floating point, or anything else. -/
inductive DKind
  | i
  | u
  | f
  | other
deriving DecidableEq, Repr

/-- The classifier outcome of the spec: image, mask, or ineligible. -/
inductive Classification
  | image
  | mask
  | ineligible
deriving DecidableEq, Repr

/-- dataset_kind's two-way outcome in h5_convert.py. -/
inductive Kind
  | image
  | mask
deriving DecidableEq, Repr

/-- h5_convert.is_metadata_name: name.endswith("_mask_name_lst") or
name.lower().endswith("_names"). -/
def is_metadata_name (name : String) : Bool :=
  List.isSuffixOf "_mask_name_lst".data name.data
    || List.isSuffixOf "_names".data (name.data.map Char.toLower)

/-- h5_convert.is_numeric_dtype: kind in ("i", "u", "f"). -/
def is_numeric_dtype : DKind → Bool
  | DKind.i => true
  | DKind.u => true
  | DKind.f => true
  | DKind.other => false

/-- Python substring containment "sub in s" on character lists. -/
def has_infix (sub : List Char) : List Char → Bool
  | [] => sub.isEmpty
  | c :: rest => List.isPrefixOf sub (c :: rest) || has_infix sub rest

/-- h5_convert.is_mask_name: "_mask_" in name. -/
def is_mask_name (name : String) : Bool :=
  has_infix "_mask_".data name.data

/-- np.dtype(dtype).kind in ("i", "u"): integer element type. -/
def is_int_dtype : DKind → Bool
  | DKind.i => true
  | DKind.u => true
  | _ => false

/-- h5_convert.is_3d_like_shape: rank at least 3 and the last three
dimensions all strictly positive. -/
def is_3d_like_shape (shape : List Nat) : Bool :=
  decide (3 ≤ shape.length)
    && (shape.drop (shape.length - 3)).all (fun d => decide (0 < d))

/-- h5_convert.dataset_kind: mask-token in the name wins, else integer
dtype means mask, else image. -/
def dataset_kind (name : String) (dt : DKind) : Kind :=
  if is_mask_name name then Kind.mask
  else if is_int_dtype dt then Kind.mask
  else Kind.image

/-- The spec's classify(path, element_type) for the dtype-heuristic
strategy: the name/dtype gates of h5_convert.list_valid_datasets followed
by dataset_kind. -/
def classify (name : String) (dt : DKind) : Classification :=
  if is_metadata_name name then Classification.ineligible
  else if is_numeric_dtype dt = false then Classification.ineligible
  else
    match dataset_kind name dt with
    | Kind.mask => Classification.mask
    | Kind.image => Classification.image

/-- A container entry: path, dtype kind, shape, and the flattened data. -/
structure Entry where
  name : String
  dtype : DKind
  shape : List Nat
  data : List ℚ
deriving DecidableEq, Repr

/-- Render a Kind the way force_kind strings name it. -/
def kind_str : Kind → String
  | Kind.image => "image"
  | Kind.mask => "mask"

/-- The visitor body of h5_convert.list_valid_datasets for one entry:
skip metadata names, non-numeric dtypes, non-3D shapes, then apply the
force_kind filter. -/
def valid_entry (force_kind : String) (e : Entry) : Option (Entry × Kind) :=
  if is_metadata_name e.name then none
  else if is_numeric_dtype e.dtype = false then none
  else if is_3d_like_shape e.shape = false then none
  else
    let kind := dataset_kind e.name e.dtype
    if (force_kind = "image" ∨ force_kind = "mask") ∧ kind_str kind ≠ force_kind then none
    else some (e, kind)

/-- h5_convert.list_valid_datasets over a container in discovery order. -/
def list_valid_datasets (h5 : List Entry) (force_kind : String) :
    List (Entry × Kind) :=
  h5.filterMap (valid_entry force_kind)

/-- Model of the external PRNG's seed-dependent state mix (np.random's
bit generator is a fixed deterministic function of its seed). -/
def seed_mix (s : Nat) : Nat :=
  (s * 6364136223846793005 + 1442695040888963407) % (2 ^ 64)

/-- np.random.default_rng(seed): when a seed is supplied the generator
state depends only on it; with seed None the state comes from ambient
OS entropy, modelled as an explicit extra argument. -/
def default_rng : Option Nat → Nat → Nat
  | some s, _ => seed_mix s
  | none, entropy => seed_mix entropy

/-- rng.integers(0, n): a deterministic draw in [0, n) from the state. -/
def rng_integers (state n : Nat) : Nat :=
  if n = 0 then 0 else state % n

/-- The selection step of h5_convert.convert_one (and the spec's
pick_one): None on an empty candidate list, otherwise the element at the
drawn index. -/
def pick_one {α : Type} (cands : List α) (seed : Option Nat) (entropy : Nat) :
    Option α :=
  if cands.isEmpty then none
  else cands.get? (rng_integers (default_rng seed entropy) cands.length)

/-- (value > threshold).astype(np.uint8) applied elementwise. -/
def binarize (t v : ℚ) : ℕ :=
  if t < v then 1 else 0

/-- astype(np.uint8) on an integer-valued source element: wrap modulo 256. -/
def int_cast_uint8 (v : ℚ) : ℕ :=
  (Int.floor v % 256).toNat

/-- np.rint: round to nearest integer, ties to even. -/
def rint (v : ℚ) : ℤ :=
  if v - Int.floor v < 1 / 2 then Int.floor v
  else if 1 / 2 < v - Int.floor v then Int.floor v + 1
  else if Int.floor v % 2 = 0 then Int.floor v else Int.floor v + 1

/-- np.rint followed by astype(np.uint8). -/
def round_cast_uint8 (v : ℚ) : ℕ :=
  (rint v % 256).toNat

/-- Errors convert_one can raise: ShapeError from squeeze_to_3d, and the
ValueError for an unknown mask_mode (the spec's ConfigError). -/
inductive ConvError
  | shapeError
  | configError (mode : String)
deriving DecidableEq, Repr

/-- The mask branch of h5_convert.convert_one (lines 142-152): auto casts
integer sources and binarizes float sources, threshold always binarizes,
round applies np.rint, anything else raises. -/
def normalize_mask (mask_mode : String) (src_is_int : Bool) (threshold : ℚ)
    (arr : List ℚ) : Except ConvError (List ℕ) :=
  if mask_mode = "auto" then
    if src_is_int then Except.ok (arr.map int_cast_uint8)
    else Except.ok (arr.map (binarize threshold))
  else if mask_mode = "threshold" then Except.ok (arr.map (binarize threshold))
  else if mask_mode = "round" then Except.ok (arr.map round_cast_uint8)
  else Except.error (ConvError.configError mask_mode)

/-- h5_convert.squeeze_to_3d on the shape: drop extent-1 dimensions and
demand exactly rank 3. -/
def squeeze_to_3d (shape : List Nat) : Except ConvError (List Nat) :=
  let s := shape.filter (fun d => decide (d ≠ 1))
  if s.length = 3 then Except.ok s else Except.error ConvError.shapeError

/-- One character of h5_convert.sanitize_filename's regex substitution. -/
def sanitize_char (c : Char) : Char :=
  if c.isAlphanum || c = '_' || c = '.' || c = '-' then c else '_'

/-- Python str.strip("/"): remove leading and trailing slashes. -/
def strip_slashes (l : List Char) : List Char :=
  ((l.dropWhile (fun c => c = '/')).reverse.dropWhile (fun c => c = '/')).reverse

/-- h5_convert.sanitize_filename (slash replacement is subsumed by the
character substitution since "/" is not in the allowed class). -/
def sanitize_filename (name : String) : String :=
  String.mk ((strip_slashes name.data).map sanitize_char)

/-- Observable I/O effects of convert_one, in program order. -/
inductive Effect
  | readData (name : String)
  | makedirs
  | writeFile (path : String)
deriving DecidableEq, Repr

/-- h5_convert.convert_one: list candidates, pick one, honour dry_run,
read and squeeze the data, create the output directory, normalize and
write.  Returns the emitted effect trace together with the
(output_path, dataset_name) result or the raised error. -/
def convert_one (h5 : List Entry) (out_dir : String) (force_kind : String)
    (seed : Option Nat) (entropy : Nat) (mask_mode : String) (threshold : ℚ)
    (dry_run : Bool) :
    List Effect × Except ConvError (Option String × Option String) :=
  let candidates := list_valid_datasets h5 force_kind
  match pick_one candidates seed entropy with
  | none => ([], Except.ok (none, none))
  | some (e, kind) =>
    if dry_run then ([], Except.ok (none, some e.name))
    else
      match squeeze_to_3d e.shape with
      | Except.error err => ([Effect.readData e.name], Except.error err)
      | Except.ok _ =>
        let base := sanitize_filename e.name
        let out_path := out_dir ++ "/" ++ base ++ ".nii.gz"
        match kind with
        | Kind.mask =>
          match normalize_mask mask_mode (is_int_dtype e.dtype) threshold e.data with
          | Except.error err =>
              ([Effect.readData e.name, Effect.makedirs], Except.error err)
          | Except.ok _ =>
              ([Effect.readData e.name, Effect.makedirs, Effect.writeFile out_path],
                Except.ok (some out_path, some e.name))
        | Kind.image =>
            ([Effect.readData e.name, Effect.makedirs, Effect.writeFile out_path],
              Except.ok (some out_path, some e.name))

/-- pick_and_display: the three-way classification of the strict
name-pattern strategy. -/
inductive VKind
  | image
  | mask
  | other
deriving DecidableEq, Repr

/-- pick_and_display.strip_ext: drop a trailing ".nii.gz" or ".nii". -/
def strip_ext (name : String) : String :=
  if List.isSuffixOf ".nii.gz".data name.data then
    String.mk (name.data.take (name.data.length - 7))
  else if List.isSuffixOf ".nii".data name.data then
    String.mk (name.data.take (name.data.length - 4))
  else name

/-- pick_and_display.IMG_NAME_RE anchored match: one or more digits, then
"_tibia_" and a side letter, then an optional ".nii" or ".nii.gz". -/
def img_name_match (s : String) : Bool :=
  let l := s.data
  let ds := l.takeWhile Char.isDigit
  let rest := l.drop ds.length
  (!ds.isEmpty)
    && (rest == "_tibia_L".data || rest == "_tibia_R".data
      || rest == "_tibia_L.nii".data || rest == "_tibia_R.nii".data
      || rest == "_tibia_L.nii.gz".data || rest == "_tibia_R.nii.gz".data)

/-- pick_and_display.classify_kind: mask token in the extension-stripped
base wins, then the strict image name pattern, else "other". -/
def classify_kind (name : String) : VKind :=
  let base := strip_ext name
  if has_infix "mask_tibia".data base.data then VKind.mask
  else if img_name_match name || img_name_match base then VKind.image
  else VKind.other

/-- Python s.split(sep, 1)[0] for a non-empty separator: the characters
before the first occurrence of sep, or all of s when sep is absent. -/
def split_before (sep : List Char) : List Char → List Char
  | [] => []
  | c :: rest =>
    if List.isPrefixOf sep (c :: rest) then []
    else c :: split_before sep rest

/-- pick_and_display.base_from_mask: when MASK_TOKEN ("mask_tibia") occurs
in the name, truncate at the first occurrence of "_" + MASK_TOKEN; else
return the name unchanged. -/
def base_from_mask (name : String) : String :=
  if has_infix "mask_tibia".data name.data then
    String.mk (split_before "_mask_tibia".data name.data)
  else name

/-- The background-companion loop of pick_and_display.main (lines
179-187): probe the bare base, base + ".nii", base + ".nii.gz" and return
the first key that is in the container and classifies as image. -/
def find_companion (container : List String) (name : String) : Option String :=
  let base := base_from_mask name
  List.find?
    (fun k => decide (k ∈ container) && decide (classify_kind k = VKind.image))
    [base, base ++ ".nii", base ++ ".nii.gz"]

/-- The mask normalization of pick_and_display.main (lines 169-173) on one
element: integer sources binarize by value > 0, float sources by
value > threshold. -/
def viewer_mask_elem (src_is_int : Bool) (threshold : ℚ) (v : ℚ) : ℕ :=
  if src_is_int then (if 0 < v then 1 else 0)
  else (if threshold < v then 1 else 0)

/-- The mask normalization of pick_and_display.main applied to a volume. -/
def viewer_normalize_mask (src_is_int : Bool) (threshold : ℚ) (arr : List ℚ) :
    List ℕ :=
  arr.map (viewer_mask_elem src_is_int threshold)

/-- The numeric values of a successful normalization, read back as
rationals for comparison against the source array. -/
def ok_vals_q (e : Except ConvError (List ℕ)) : Option (List ℚ) :=
  match e with
  | Except.ok l => some (l.map (fun n : ℕ => (n : ℚ)))
  | Except.error _ => none

/-! Helper lemmas shared by the claim theorems. -/

/-- Branch lemma: the "round" policy of convert_one. -/
theorem normalize_mask_round (b : Bool) (t : ℚ) (arr : List ℚ) :
    normalize_mask "round" b t arr = Except.ok (arr.map round_cast_uint8) := rfl

/-- Branch lemma: the "threshold" policy of convert_one. -/
theorem normalize_mask_threshold (b : Bool) (t : ℚ) (arr : List ℚ) :
    normalize_mask "threshold" b t arr = Except.ok (arr.map (binarize t)) := rfl

/-- Branch lemma: the "auto" policy on an integer source. -/
theorem normalize_mask_auto_int (t : ℚ) (arr : List ℚ) :
    normalize_mask "auto" true t arr = Except.ok (arr.map int_cast_uint8) := rfl

/-- Branch lemma: the "auto" policy on a float source. -/
theorem normalize_mask_auto_float (t : ℚ) (arr : List ℚ) :
    normalize_mask "auto" false t arr = Except.ok (arr.map (binarize t)) := rfl

/-- np.rint then uint8 cast is the identity on the value 0. -/
theorem round_cast_uint8_zero : round_cast_uint8 0 = 0 := by
  norm_num [round_cast_uint8, rint]

/-- np.rint then uint8 cast is the identity on the value 1. -/
theorem round_cast_uint8_one : round_cast_uint8 1 = 1 := by
  norm_num [round_cast_uint8, rint]

/-- Binarization at the default threshold keeps 0 at 0. -/
theorem binarize_half_zero : binarize (1 / 2) 0 = 0 := by
  norm_num [binarize]

/-- Binarization at the default threshold keeps 1 at 1. -/
theorem binarize_half_one : binarize (1 / 2) 1 = 1 := by
  norm_num [binarize]

/-- An elementwise map that fixes 0 and 1 is the identity, after casting
back, on a list whose values all lie in the set containing 0 and 1. -/
theorem map_cast_binary (f : ℚ → ℕ) (hf0 : f 0 = 0) (hf1 : f 1 = 1) :
    ∀ (arr : List ℚ), (∀ x ∈ arr, x = 0 ∨ x = 1) →
      List.map (fun n : ℕ => (n : ℚ)) (List.map f arr) = arr := by
  intro arr h
  induction arr with
  | nil => simp
  | cons x xs ih =>
    have hx := h x (List.mem_cons_self x xs)
    have hxs := fun y hy => h y (List.mem_cons_of_mem x hy)
    rcases hx with hx | hx <;> subst hx <;> simp [ih hxs, hf0, hf1]

/-- A successful visitor outcome keeps the entry and implies its name is
not a metadata name. -/
theorem valid_entry_shape (fk : String) (e : Entry) (c : Entry × Kind)
    (h : valid_entry fk e = some c) :
    c.1 = e ∧ is_metadata_name e.name = false := by
  simp only [valid_entry] at h
  split_ifs at h with h1 h2 h3 h4
  have hc := Option.some.inj h
  subst hc
  exact ⟨rfl, by simpa using h1⟩

/-! Claim theorems. -/

/-- C1: every path matching the metadata-suffix pattern set (trailing
"_mask_name_lst", or a case-insensitive "_names" suffix) classifies as
ineligible for every element type — the exclusion takes priority over the
mask-token and integer-dtype rules — and no candidate produced by
list_valid_datasets ever carries such a name. -/
theorem metadata_suffix_always_ineligible (name : String) (dk : DKind)
    (h : is_metadata_name name = true) :
    classify name dk = Classification.ineligible ∧
    ∀ (h5 : List Entry) (fk : String) (c : Entry × Kind),
      c ∈ list_valid_datasets h5 fk → c.1.name ≠ name := by
  constructor
  · simp [classify, h]
  · intro h5 fk c hc hEq
    rcases List.mem_filterMap.mp hc with ⟨e, _, hve⟩
    rcases valid_entry_shape fk e c hve with ⟨hce, hmf⟩
    rw [← hce, hEq, h] at hmf
    exact Bool.noConfusion hmf

/-- Witness for C1 at the concrete metadata path "x_mask_name_lst" with an
integer element type (exercising priority over both the mask-token and the
integer-dtype rule). -/
theorem metadata_suffix_always_ineligible_witness :
    is_metadata_name "x_mask_name_lst" = true ∧
    classify "x_mask_name_lst" DKind.i = Classification.ineligible :=
  ⟨by decide,
    (metadata_suffix_always_ineligible "x_mask_name_lst" DKind.i (by decide)).1⟩

/-- C2: under the dtype-heuristic strategy, a path that is neither a
metadata name nor contains the "_mask_" token classifies as mask when the
element type is a signed or unsigned integer, and as image when it is
floating-point. -/
theorem type_priority (name : String) (dk : DKind)
    (hm : is_metadata_name name = false) (hk : is_mask_name name = false) :
    (is_int_dtype dk = true → classify name dk = Classification.mask) ∧
    (dk = DKind.f → classify name dk = Classification.image) := by
  constructor
  · intro h
    cases dk <;> simp_all [classify, dataset_kind, is_numeric_dtype, is_int_dtype]
  · intro h
    subst h
    simp [classify, dataset_kind, is_numeric_dtype, is_int_dtype, hm, hk]

/-- Witness for C2 at the path "vol": signed-integer dtype gives mask and
float dtype gives image. -/
theorem type_priority_witness :
    is_metadata_name "vol" = false ∧ is_mask_name "vol" = false ∧
    classify "vol" DKind.i = Classification.mask ∧
    classify "vol" DKind.f = Classification.image :=
  ⟨by decide, by decide,
    (type_priority "vol" DKind.i (by decide) (by decide)).1 rfl,
    (type_priority "vol" DKind.f (by decide) (by decide)).2 rfl⟩

/-- C3 counterexample: for an integer source holding the label value 2,
the conversion variant's auto policy preserves the label (direct cast),
but the interactive viewer variant produces 1, not 2 — so the direct-cast
behaviour does not hold at both call sites. -/
theorem auto_policy_both_sites_counterexample :
    normalize_mask "auto" true (1 / 2) [2] = Except.ok [2] ∧
    viewer_normalize_mask true (1 / 2) [2] = [1] ∧ (1 : ℕ) ≠ 2 := by
  refine ⟨?_, by decide, by decide⟩
  rw [normalize_mask_auto_int]
  norm_num [int_cast_uint8]
  decide

/-- C3 amended: under the auto policy the conversion variant casts integer
sources directly (modulo the uint8 wrap) and binarizes float sources by
value > threshold; the interactive viewer variant has no auto policy and
always binarizes — integer sources by value > 0 and float sources by
value > threshold. -/
theorem mask_auto_policy_per_call_site (t : ℚ) (arr : List ℚ) :
    normalize_mask "auto" true t arr = Except.ok (arr.map int_cast_uint8) ∧
    normalize_mask "auto" false t arr = Except.ok (arr.map (binarize t)) ∧
    viewer_normalize_mask true t arr =
      arr.map (fun v => if 0 < v then 1 else 0) ∧
    viewer_normalize_mask false t arr = arr.map (binarize t) :=
  ⟨rfl, rfl, rfl, rfl⟩

/-- C4: the threshold policy binarizes by strict greater-than against the
configured threshold for either source element type, and on the float
array [0.2, 0.6, 0.5] with threshold 0.5 it yields [0, 1, 0]: the element
equal to the threshold maps to 0. -/
theorem threshold_policy_strict_gt (b : Bool) (t : ℚ) (arr : List ℚ) :
    normalize_mask "threshold" b t arr = Except.ok (arr.map (binarize t)) ∧
    normalize_mask "threshold" false (1 / 2) [1 / 5, 3 / 5, 1 / 2] =
      Except.ok [0, 1, 0] := by
  constructor
  · exact normalize_mask_threshold b t arr
  · rw [normalize_mask_threshold]
    norm_num [binarize]

/-- C5 counterexample: the mask path "7_tibia_L_mask_x_mask_tibia_y" has
the form P ++ "_mask_" ++ T for the image entry P = "7_tibia_L" present in
the container, and classifies as mask, yet find_companion returns none
rather than P: the resolver truncates at the configured token
"_mask_tibia", not at the generic "_mask_" junction. -/
theorem companion_round_trip_counterexample :
    classify_kind "7_tibia_L_mask_x_mask_tibia_y" = VKind.mask ∧
    classify_kind "7_tibia_L" = VKind.image ∧
    ("7_tibia_L" ++ "_mask_" ++ "x_mask_tibia_y" : String) =
      "7_tibia_L_mask_x_mask_tibia_y" ∧
    find_companion ["7_tibia_L", "7_tibia_L_mask_x_mask_tibia_y"]
      "7_tibia_L_mask_x_mask_tibia_y" = none := by
  refine ⟨by decide, by decide, ?_, by decide⟩
  decide

/-- C5 amended: the resolver truncates the mask path at the first
occurrence of "_" followed by the configured mask token (full path when
absent) and probes bare base, base + ".nii", base + ".nii.gz" in order,
returning the first probe that exists in the container and classifies as
image, else None; the round-trip to P therefore holds exactly when the
truncation yields P (e.g. mask paths of the form P ++ "_mask_tibia" ++ T),
not for every path of the form "P_mask_T". -/
theorem find_companion_truncated_base (container : List String) (m P : String)
    (h1 : base_from_mask m = P) (h2 : P ∈ container)
    (h3 : classify_kind P = VKind.image) :
    find_companion container m = some P := by
  unfold find_companion
  rw [h1]
  exact List.find?_cons_of_pos _ (by simp [h2, h3])

/-- Witness for C5 amended at the spec's own round-trip example. -/
theorem find_companion_truncated_base_witness :
    base_from_mask "7_tibia_L_mask_tibia_L" = "7_tibia_L" ∧
    find_companion ["7_tibia_L", "7_tibia_L_mask_tibia_L"]
      "7_tibia_L_mask_tibia_L" = some "7_tibia_L" :=
  ⟨by decide,
    find_companion_truncated_base ["7_tibia_L", "7_tibia_L_mask_tibia_L"]
      "7_tibia_L_mask_tibia_L" "7_tibia_L" (by decide) (by decide) (by decide)⟩

/-- C6: with a supplied seed the random pick is a function of the seed and
the candidate sequence alone — the ambient entropy the unseeded generator
would use has no influence, so two invocations agree. -/
theorem pick_one_deterministic_for_seed (cands : List (Entry × Kind))
    (s : Nat) (e1 e2 : Nat) :
    pick_one cands (some s) e1 = pick_one cands (some s) e2 := rfl

/-- C7: when no entry passes the eligibility, kind and shape filters the
selection yields None and convert_one returns the empty result
(None, None) with no effects and no raised error. -/
theorem empty_candidates_no_match (h5 : List Entry) (od fk : String)
    (seed : Option Nat) (ent : Nat) (mm : String) (t : ℚ) (dr : Bool)
    (h : list_valid_datasets h5 fk = []) :
    pick_one (list_valid_datasets h5 fk) seed ent = none ∧
    convert_one h5 od fk seed ent mm t dr = ([], Except.ok (none, none)) := by
  constructor
  · rw [h]
    rfl
  · simp only [convert_one, h]
    rfl

/-- Witness for C7: a container holding only a metadata list yields no
candidates and the empty (None, None) outcome. -/
theorem empty_candidates_no_match_witness :
    list_valid_datasets [Entry.mk "vol_mask_name_lst" DKind.i [5] []] "any" = [] ∧
    convert_one [Entry.mk "vol_mask_name_lst" DKind.i [5] []] "out" "any"
      (some 0) 0 "auto" (1 / 2) false = ([], Except.ok (none, none)) :=
  ⟨by decide,
    (empty_candidates_no_match [Entry.mk "vol_mask_name_lst" DKind.i [5] []]
      "out" "any" (some 0) 0 "auto" (1 / 2) false (by decide)).2⟩

/-- C8 counterexample: with the unknown policy token "bogus" and a mask
entry selected, convert_one does raise the config error, but its effect
trace already contains the read of the selected entry's data — the
failure does not occur before I/O. -/
theorem config_error_not_before_io_counterexample :
    (convert_one [Entry.mk "a_mask_b" DKind.i [4, 4, 4] [1, 2]] "out" "any"
        (some 0) 0 "bogus" (1 / 2) false).2 =
      Except.error (ConvError.configError "bogus") ∧
    Effect.readData "a_mask_b" ∈
      (convert_one [Entry.mk "a_mask_b" DKind.i [4, 4, 4] [1, 2]] "out" "any"
        (some 0) 0 "bogus" (1 / 2) false).1 :=
  ⟨rfl, by decide⟩

/-- C8 amended: an unknown mask policy token raises the config error when
the selected entry is a mask and dry-run is off, but only after the
selected entry's data has been read (and the output directory created):
the failure is not before I/O. -/
theorem unknown_mask_mode_raises_after_read (h5 : List Entry) (od fk : String)
    (seed : Option Nat) (ent : Nat) (mm : String) (t : ℚ) (e : Entry)
    (sh : List Nat)
    (hpick : pick_one (list_valid_datasets h5 fk) seed ent = some (e, Kind.mask))
    (hsq : squeeze_to_3d e.shape = Except.ok sh)
    (h1 : mm ≠ "auto") (h2 : mm ≠ "threshold") (h3 : mm ≠ "round") :
    (convert_one h5 od fk seed ent mm t false).2 =
      Except.error (ConvError.configError mm) ∧
    Effect.readData e.name ∈ (convert_one h5 od fk seed ent mm t false).1 := by
  have hnm : normalize_mask mm (is_int_dtype e.dtype) t e.data =
      Except.error (ConvError.configError mm) := by
    unfold normalize_mask
    rw [if_neg h1, if_neg h2, if_neg h3]
  simp only [convert_one, hpick, hsq, hnm]
  simp

/-- Witness for C8 amended at a concrete container and the token "bogus". -/
theorem unknown_mask_mode_raises_after_read_witness :
    (convert_one [Entry.mk "c_mask_d" DKind.u [1, 2, 3, 4] [0]] "o" "any"
        (some 1) 5 "bogus" 0 false).2 =
      Except.error (ConvError.configError "bogus") ∧
    Effect.readData "c_mask_d" ∈
      (convert_one [Entry.mk "c_mask_d" DKind.u [1, 2, 3, 4] [0]] "o" "any"
        (some 1) 5 "bogus" 0 false).1 :=
  unknown_mask_mode_raises_after_read
    [Entry.mk "c_mask_d" DKind.u [1, 2, 3, 4] [0]] "o" "any" (some 1) 5
    "bogus" 0 (Entry.mk "c_mask_d" DKind.u [1, 2, 3, 4] [0]) [2, 3, 4]
    (by decide) (by rfl) (by decide) (by decide) (by decide)

/-- C9: on an already-binary mask array the round policy and the threshold
policy at the default threshold 0.5 both reproduce exactly the same
element values. -/
theorem binary_mask_normalization_idempotent (b : Bool) (t : ℚ)
    (arr : List ℚ) (h : ∀ x ∈ arr, x = 0 ∨ x = 1) :
    ok_vals_q (normalize_mask "round" b t arr) = some arr ∧
    ok_vals_q (normalize_mask "threshold" b (1 / 2) arr) = some arr := by
  constructor
  · rw [normalize_mask_round]
    simp only [ok_vals_q]
    rw [map_cast_binary round_cast_uint8 round_cast_uint8_zero
      round_cast_uint8_one arr h]
  · rw [normalize_mask_threshold]
    simp only [ok_vals_q]
    rw [map_cast_binary (binarize (1 / 2)) binarize_half_zero
      binarize_half_one arr h]

/-- Witness for C9 on the binary array [0, 1, 1, 0]. -/
theorem binary_mask_normalization_idempotent_witness :
    ok_vals_q (normalize_mask "round" false 7 [0, 1, 1, 0]) =
      some [0, 1, 1, 0] ∧
    ok_vals_q (normalize_mask "threshold" false (1 / 2) [0, 1, 1, 0]) =
      some [0, 1, 1, 0] :=
  binary_mask_normalization_idempotent false 7 [0, 1, 1, 0] (by decide)

/-- C10: every element the interactive viewer hands to the visualization
host is 0 or 1, whatever the source element type, and any integer label
value greater than 1 is collapsed to 1. -/
theorem viewer_mask_strictly_binary (b : Bool) (t : ℚ) (arr : List ℚ) :
    (∀ y ∈ viewer_normalize_mask b t arr, y = 0 ∨ y = 1) ∧
    (∀ v : ℚ, 1 < v → viewer_mask_elem true t v = 1) := by
  constructor
  · intro y hy
    simp only [viewer_normalize_mask, List.mem_map] at hy
    rcases hy with ⟨x, _, rfl⟩
    unfold viewer_mask_elem
    rcases b <;> split_ifs <;> simp
  · intro v hv
    unfold viewer_mask_elem
    simp [lt_trans zero_lt_one hv]

/-- Witness for C10: the label value 2 comes out as 1, which is binary. -/
theorem viewer_mask_strictly_binary_witness :
    ((1 : ℕ) = 0 ∨ (1 : ℕ) = 1) ∧ viewer_mask_elem true (1 / 2) 2 = 1 :=
  ⟨(viewer_mask_strictly_binary true (1 / 2) [2]).1 1 (by decide),
    (viewer_mask_strictly_binary true (1 / 2) [2]).2 2 (by norm_num)⟩
